/-
Verification of the PACT compliance engine core against its specification.

The development shallowly embeds the core of the engine:
  * `app/core/engine.py`   — event normalisation (`map_event_to_rdf`),
    system/control resolution, and assessment generation (`run_assessment`);
  * `app/core/store.py`    — the temporal graph store (`PACTStore.save`,
    `PACTStore.add_graph`, `PACTStore.get_stats`);
  * `app/api/v1/endpoints/compliance.py` — the drift query (`get_drift`) and
    the threat-correlation filter validation (`check_threat_mitigation`).

Modelling conventions:
  * RDF URIs are pairs of a namespace tag and a local name; literals carry
    their payload.  `xsd:dateTime` literals are modelled as naturals (ISO-8601
    UTC timestamps of a fixed format are totally ordered, order-isomorphic to
    their chronology).
  * An rdflib `Graph` is a set of triples; we represent it as a duplicate-free
    list built with `gInsert` (inserting an already-present triple is a no-op,
    exactly rdflib's set semantics).  A `Dataset` is likewise a set of quads.
  * The external SHACL validator is the collaborator of spec §6 with contract
    `validate(dataGraph, ruleGraph) -> set<FocusNode, Message>`; it enters the
    model as a function argument producing a list of `VResult`.
  * Python dict-shaped events are modelled as association lists of JSON
    values; `json.dumps(·, sort_keys=True)` and `hashlib.sha256` are
    implemented executably below.
-/
import Mathlib

namespace PactSpec

set_option maxRecDepth 20000

/-! ## RDF terms, triples, graphs -/

/-- Namespace tags for the URIs the engine builds (`engine.py` lines 23-26). -/
inductive NS where
  | pactNS
  | ucoObsNS
  | ucoCoreNS
  | rdfNS
  | rdfsNS
  | shNS
  | plain
deriving DecidableEq, Repr

/-- An RDF term: a namespaced URI, a string literal, an integer literal,
an `xsd:dateTime` literal (as a natural), or a blank node. -/
inductive Term where
  | uri (ns : NS) (name : String)
  | lit (s : String)
  | intLit (n : Int)
  | timeLit (n : Nat)
  | bnode (n : Nat)
deriving DecidableEq, Repr

def pact (s : String) : Term := Term.uri NS.pactNS s

def ucoObs (s : String) : Term := Term.uri NS.ucoObsNS s

def rdfType : Term := Term.uri NS.rdfNS "type"

def rdfsLabel : Term := Term.uri NS.rdfsNS "label"

abbrev Triple := Term × Term × Term

/-- An rdflib `Graph` as a duplicate-free triple list (set semantics). -/
abbrev Graph := List Triple

/-- `Graph.add`: rdflib graphs are sets, adding a present triple is a no-op. -/
def gInsert (g : Graph) (t : Triple) : Graph :=
  if t ∈ g then g else t :: g

/-- A sequence of `Graph.add` calls, in source order. -/
def insertAll (g : Graph) (ts : List Triple) : Graph :=
  ts.foldl gInsert g

theorem mem_gInsert_self (g : Graph) (t : Triple) : t ∈ gInsert g t := by
  unfold gInsert
  split
  · assumption
  · exact List.mem_cons_self _ _

theorem mem_gInsert_of_mem {g : Graph} {t' : Triple} (t : Triple) (h : t' ∈ g) :
    t' ∈ gInsert g t := by
  unfold gInsert
  split
  · exact h
  · exact List.mem_cons_of_mem _ h

theorem gInsert_of_mem {g : Graph} {t : Triple} (h : t ∈ g) : gInsert g t = g := by
  unfold gInsert
  simp [h]

theorem mem_gInsert_iff {g : Graph} {t t' : Triple} :
    t' ∈ gInsert g t ↔ t' = t ∨ t' ∈ g := by
  unfold gInsert
  split
  · rename_i h
    constructor
    · exact Or.inr
    · rintro (rfl | h') <;> assumption
  · exact List.mem_cons

theorem mem_insertAll_of_mem {g : Graph} {t : Triple} (ts : List Triple) (h : t ∈ g) :
    t ∈ insertAll g ts := by
  induction ts generalizing g with
  | nil => exact h
  | cons u us ih => exact ih (mem_gInsert_of_mem u h)

theorem mem_insertAll_of_mem_list {g : Graph} {t : Triple} {ts : List Triple} (h : t ∈ ts) :
    t ∈ insertAll g ts := by
  induction ts generalizing g with
  | nil => cases h
  | cons u us ih =>
    rcases List.mem_cons.mp h with rfl | h'
    · exact mem_insertAll_of_mem us (mem_gInsert_self g t)
    · exact ih h'

theorem insertAll_of_subset {g : Graph} {ts : List Triple} (h : ∀ t ∈ ts, t ∈ g) :
    insertAll g ts = g := by
  induction ts with
  | nil => rfl
  | cons u us ih =>
    have hu : u ∈ g := h u (List.mem_cons_self _ _)
    show insertAll (gInsert g u) us = g
    rw [gInsert_of_mem hu]
    exact ih fun t ht => h t (List.mem_cons_of_mem _ ht)

theorem mem_insertAll_iff {g : Graph} {t : Triple} {ts : List Triple} :
    t ∈ insertAll g ts ↔ t ∈ g ∨ t ∈ ts := by
  induction ts generalizing g with
  | nil => simp [insertAll]
  | cons u us ih =>
    show t ∈ insertAll (gInsert g u) us ↔ _
    rw [ih, mem_gInsert_iff]
    simp only [List.mem_cons]
    tauto

/-! ## Python string primitives used by the engine -/

/-- Python `str.lower()` (the engine only lowercases ASCII identifiers). -/
def pyLower (s : String) : String := ⟨s.data.map Char.toLower⟩

/-- Core of Python `str.replace`: leftmost, non-overlapping replacement.
The fuel argument (initially the string length) only drives structural
recursion; every step consumes at least one character, so fuel never runs
out on the initial call. -/
def replaceListAux (pat repl : List Char) : Nat → List Char → List Char
  | _, [] => []
  | 0, s => s
  | fuel + 1, c :: rest =>
    if pat ≠ [] ∧ pat.isPrefixOf (c :: rest) then
      repl ++ replaceListAux pat repl fuel ((c :: rest).drop pat.length)
    else
      c :: replaceListAux pat repl fuel rest

/-- Python `s.replace(pat, repl)` (for non-empty `pat`, as used in the engine). -/
def pyReplace (s pat repl : String) : String :=
  ⟨replaceListAux pat.data repl.data s.data.length s.data⟩

/-- Python `needle in hay` on strings (contiguous substring). -/
def isSubstrOf : List Char → List Char → Bool
  | n, [] => n.isEmpty
  | n, c :: t => n.isPrefixOf (c :: t) || isSubstrOf n t

/-! ## SHA-256 (`hashlib.sha256`), executable

Standard FIPS 180-4 SHA-256 over byte lists, with 32-bit words as naturals
reduced mod `2 ^ 32`.  Only determinism is used by the theorems, but the
digest is implemented in full so the embedding matches the source. -/

def w32 (x : Nat) : Nat := x % 4294967296

def rotr32 (n x : Nat) : Nat := w32 ((x >>> n) ||| (x <<< (32 - n)))

def not32 (x : Nat) : Nat := 4294967295 - x

def shaCh (x y z : Nat) : Nat := (x &&& y) ^^^ (not32 x &&& z)

def shaMaj (x y z : Nat) : Nat := (x &&& y) ^^^ (x &&& z) ^^^ (y &&& z)

def bigSigma0 (x : Nat) : Nat := rotr32 2 x ^^^ rotr32 13 x ^^^ rotr32 22 x

def bigSigma1 (x : Nat) : Nat := rotr32 6 x ^^^ rotr32 11 x ^^^ rotr32 25 x

def smallSigma0 (x : Nat) : Nat := rotr32 7 x ^^^ rotr32 18 x ^^^ (x >>> 3)

def smallSigma1 (x : Nat) : Nat := rotr32 17 x ^^^ rotr32 19 x ^^^ (x >>> 10)

/-- Binary search for the integer cube root (fuel-driven). -/
def cbrtSearch (n : Nat) : Nat → Nat → Nat → Nat
  | 0, lo, _ => lo
  | fuel + 1, lo, hi =>
    if hi ≤ lo + 1 then lo
    else
      let mid := (lo + hi) / 2
      if mid * mid * mid ≤ n then cbrtSearch n fuel mid hi
      else cbrtSearch n fuel lo mid

def icbrt (n : Nat) : Nat := cbrtSearch n 140 0 (n + 1)

/-- The first 64 primes, whose roots yield the SHA-256 constants. -/
def first64Primes : List Nat :=
  [2, 3, 5, 7, 11, 13, 17, 19, 23, 29, 31, 37, 41, 43, 47, 53,
   59, 61, 67, 71, 73, 79, 83, 89, 97, 101, 103, 107, 109, 113, 127, 131,
   137, 139, 149, 151, 157, 163, 167, 173, 179, 181, 191, 193, 197, 199, 211, 223,
   227, 229, 233, 239, 241, 251, 257, 263, 269, 271, 277, 281, 283, 293, 307, 311]

/-- Round constant: the first 32 fractional bits of the cube root of a prime. -/
def kOfPrime (p : Nat) : Nat := icbrt (p <<< 96) - (icbrt p <<< 32)

/-- Initial hash word: the first 32 fractional bits of the square root of a prime. -/
def hOfPrime (p : Nat) : Nat := Nat.sqrt (p <<< 64) - (Nat.sqrt p <<< 32)

def shaK : List Nat := first64Primes.map kOfPrime

def shaH0 : List Nat := (first64Primes.take 8).map hOfPrime

/-- Big-endian byte rendering of `val` on `numBytes` bytes. -/
def toBEBytes (numBytes val : Nat) : List Nat :=
  (List.range numBytes).map fun i => (val >>> (8 * (numBytes - 1 - i))) % 256

/-- FIPS 180-4 padding: `0x80`, zeros to 56 mod 64, 8-byte big-endian bit length. -/
def padMessage (msg : List Nat) : List Nat :=
  let L := msg.length
  let k := (64 + 56 - ((L + 1) % 64)) % 64
  msg ++ [0x80] ++ List.replicate k 0 ++ toBEBytes 8 (8 * L)

/-- Split into chunks of `n + 1` elements. -/
def chunksOfSucc (n : Nat) : List α → List (List α)
  | [] => []
  | c :: rest => ((c :: rest).take (n + 1)) :: chunksOfSucc n ((c :: rest).drop (n + 1))
termination_by l => l.length
decreasing_by
  simp only [List.length_drop, List.length_cons]
  omega

def bytesToWord (bs : List Nat) : Nat := bs.foldl (fun a b => a * 256 + b) 0

/-- Extend the 16 message-schedule words by `i` further words. -/
def buildSchedule (w : List Nat) : Nat → List Nat
  | 0 => w
  | i + 1 =>
    let t := w.length
    let next := w32 (w.getD (t - 16) 0 + smallSigma0 (w.getD (t - 15) 0) +
                     w.getD (t - 7) 0 + smallSigma1 (w.getD (t - 2) 0))
    buildSchedule (w ++ [next]) i

/-- One SHA-256 round on the eight-word state. -/
def shaRound (st : List Nat) (wk : Nat × Nat) : List Nat :=
  match st with
  | [a, b, c, d, e, f, g, h] =>
    let t1 := w32 (h + bigSigma1 e + shaCh e f g + wk.2 + wk.1)
    let t2 := w32 (bigSigma0 a + shaMaj a b c)
    [w32 (t1 + t2), a, b, c, w32 (d + t1), e, f, g]
  | other => other

def processBlock (h : List Nat) (block : List Nat) : List Nat :=
  let ws := buildSchedule ((chunksOfSucc 3 block).map bytesToWord) 48
  let st := (ws.zip shaK).foldl shaRound h
  (h.zip st).map fun p => w32 (p.1 + p.2)

def sha256Bytes (msg : List Nat) : List Nat :=
  (chunksOfSucc 63 (padMessage msg)).foldl processBlock shaH0

def hexDigit (n : Nat) : Char :=
  if n < 10 then Char.ofNat (48 + n) else Char.ofNat (87 + n)

def wordToHex (w : Nat) : List Char :=
  (toBEBytes 4 w).flatMap fun b => [hexDigit (b / 16), hexDigit (b % 16)]

/-- UTF-8 encoding of one character (`str.encode()`). -/
def utf8Bytes (c : Char) : List Nat :=
  let n := c.toNat
  if n < 0x80 then [n]
  else if n < 0x800 then
    [0xC0 ||| (n >>> 6), 0x80 ||| (n &&& 0x3F)]
  else if n < 0x10000 then
    [0xE0 ||| (n >>> 12), 0x80 ||| ((n >>> 6) &&& 0x3F), 0x80 ||| (n &&& 0x3F)]
  else
    [0xF0 ||| (n >>> 18), 0x80 ||| ((n >>> 12) &&& 0x3F),
     0x80 ||| ((n >>> 6) &&& 0x3F), 0x80 ||| (n &&& 0x3F)]

def strBytes (s : String) : List Nat := s.data.flatMap utf8Bytes

/-- `hashlib.sha256(s.encode()).hexdigest()`. -/
def sha256hex (s : String) : String :=
  ⟨(sha256Bytes (strBytes s)).flatMap wordToHex⟩

/-! ## Events and `json.dumps(event, sort_keys=True)`

Events arrive as Python dicts; we model them as association lists of JSON
values.  `jsonDumps` mirrors `json.dumps` with `sort_keys=True` and the
default separators; escaping covers the quote and backslash (the characters
appearing in the engine's inputs), which is all the development relies on
since only determinism of the serialisation is used. -/

inductive JVal where
  | jnull
  | jbool (b : Bool)
  | jnum (n : Int)
  | jstr (s : String)
  | jarr (xs : List JVal)
  | jobj (fields : List (String × JVal))

/-- A raw event: the Python dict passed to `map_event_to_rdf`. -/
abbrev Event := List (String × JVal)

def escChar (c : Char) : List Char :=
  if c = '"' then ['\\', '"'] else if c = '\\' then ['\\', '\\'] else [c]

def quoteJson (s : String) : String :=
  "\"" ++ ⟨s.data.flatMap escChar⟩ ++ "\""

def joinComma (xs : List String) : String := String.intercalate ", " xs

/-- Sort dict entries by key (Python compares strings by code point). -/
def sortEntries (es : List (String × String)) : List (String × String) :=
  es.mergeSort fun a b => a.1 ≤ b.1

mutual

def jsonDumps : JVal → String
  | JVal.jnull => "null"
  | JVal.jbool b => if b then "true" else "false"
  | JVal.jnum n => toString n
  | JVal.jstr s => quoteJson s
  | JVal.jarr xs => "[" ++ joinComma (jsonDumpsList xs) ++ "]"
  | JVal.jobj fs =>
    "\x7b" ++
      joinComma ((sortEntries (jsonDumpsEntries fs)).map fun kv =>
        quoteJson kv.1 ++ ": " ++ kv.2) ++ "\x7d"

def jsonDumpsList : List JVal → List String
  | [] => []
  | x :: xs => jsonDumps x :: jsonDumpsList xs

def jsonDumpsEntries : List (String × JVal) → List (String × String)
  | [] => []
  | (k, v) :: fs => (k, jsonDumps v) :: jsonDumpsEntries fs

end

/-! ### Dict accessors (Python `dict.get` plus truthiness) -/

/-- `event.get(k)` restricted to string values (the shapes the engine reads). -/
def getStr? (e : Event) (k : String) : Option String :=
  match e.lookup k with
  | some (JVal.jstr s) => some s
  | _ => none

/-- `event.get(k, d)` for string fields. -/
def getStrD (e : Event) (k d : String) : String := (getStr? e k).getD d

/-- `event.get(k, {})` for dict-valued fields. -/
def getObj (e : Event) (k : String) : Event :=
  match e.lookup k with
  | some (JVal.jobj fs) => fs
  | _ => []

/-- `event.get(k, d)` for integer fields. -/
def getIntD (e : Event) (k : String) (d : Int) : Int :=
  match e.lookup k with
  | some (JVal.jnum n) => n
  | _ => d

/-- Collapse a falsy Python string (`None` or `""`) to `none`. -/
def truthyStr : Option String → Option String
  | none => none
  | some s => if s.isEmpty then none else some s

/-- Python `a or b` for an optional string `a` and string `b`. -/
def pyOrElse (a : Option String) (b : String) : String :=
  match truthyStr a with
  | some s => s
  | none => b

/-- Python `str(...)` on the JSON values that reach `config_change` mapping. -/
def pyStr : JVal → String
  | JVal.jnull => "None"
  | JVal.jbool b => if b then "True" else "False"
  | JVal.jnum n => toString n
  | JVal.jstr s => s
  | v => jsonDumps v

/-! ## `app/core/engine.py` -/

/-- `EVENT_CONTROL_MAP` (engine.py lines 33-39). -/
def EVENT_CONTROL_MAP : List (String × String) :=
  [("file_access", "Control_AC3"),
   ("network_connection", "Control_CM7"),
   ("authentication", "Control_IA2"),
   ("api_call", "Control_AU12"),
   ("config_change", "Control_CM3")]

/-- `EVENT_CONTROL_MAP.get(event_type, "Control_Unknown")`. -/
def controlIdFor (event_type : String) : String :=
  (EVENT_CONTROL_MAP.lookup event_type).getD "Control_Unknown"

/-- `resolve_control_uri` (engine.py lines 79-84). -/
def resolve_control_uri (event_type : String) : Term :=
  pact (controlIdFor event_type)

/-- The per-type default systems table (engine.py lines 55-61). -/
def default_systems : List (String × String) :=
  [("file_access", "GenericFileServer"),
   ("network_connection", "GenericNetworkDevice"),
   ("authentication", "IdentityProvider"),
   ("api_call", "APIGateway"),
   ("config_change", "ConfigManagement")]

/-- The system display name `resolve_system_uri` settles on: the explicit
name when truthy, else the per-type default (engine.py lines 53-62). -/
def resolvedSystemName (system_name : Option String) (event_type : String) : String :=
  match truthyStr system_name with
  | some s => s
  | none => (default_systems.lookup event_type).getD "UnknownSystem"

/-- `re.sub(r'[^A-Za-z0-9_-]', '_', system_name)` (engine.py line 65). -/
def sanitizeSystemName (s : String) : String :=
  ⟨s.data.map fun c => if c.isAlphanum || c = '_' || c = '-' then c else '_'⟩

/-- `resolve_system_uri` (engine.py lines 42-76): find or lazily create the
system node, returning the updated graph and the system URI. -/
def resolve_system_uri (g : Graph) (system_name : Option String) (event_type : String) :
    Graph × Term :=
  let name := resolvedSystemName system_name event_type
  let system_uri := pact (sanitizeSystemName name)
  if (system_uri, rdfType, pact "System") ∈ g then
    (g, system_uri)
  else
    (insertAll g [(system_uri, rdfType, pact "System"),
                  (system_uri, rdfsLabel, Term.lit name)],
     system_uri)

def safeIdChar (c : Char) : Bool :=
  c.isAlphanum || c = '.' || c = '_' || c = '-'

/-- `generate_safe_id` (engine.py lines 87-93): keep an id matching
`[A-Za-z0-9._-]{1,128}` verbatim, else derive a 16-hex-digit digest id. -/
def generate_safe_id (value : String) : String :=
  if 1 ≤ value.length && value.length ≤ 128 && value.data.all safeIdChar then value
  else "hash-" ++ (sha256hex value).take 16

/-- The event id `map_event_to_rdf` uses: the caller's truthy `id`, else
`auto-` plus the first 8 hex digits of the SHA-256 of the key-sorted JSON
serialisation of the event (engine.py lines 107-112). -/
def eventIdOf (e : Event) : String :=
  match truthyStr (getStr? e "id") with
  | some s => s
  | none => "auto-" ++ (sha256hex (jsonDumps (JVal.jobj e))).take 8

/-- The evidence node URI (engine.py lines 114-116). -/
def evidenceUriOf (e : Event) : Term :=
  pact ("evidence/" ++ generate_safe_id (eventIdOf e))

/-- `urllib.parse.quote_plus`. -/
def quotePlus (s : String) : String :=
  ⟨s.data.flatMap fun c =>
    if c.isAlphanum || c = '_' || c = '.' || c = '-' || c = '~' then [c]
    else if c = ' ' then ['+']
    else (utf8Bytes c).flatMap fun b =>
      ['%', (hexDigit (b / 16)).toUpper, (hexDigit (b % 16)).toUpper]⟩

/-- The evidence source link: the caller's truthy `source_url`, else the
synthesized Splunk search link (engine.py lines 119-124). -/
def sourceUrlOf (e : Event) : String :=
  match truthyStr (getStr? e "source_url") with
  | some s => s
  | none =>
    "https://splunk.your-org.com/en-US/app/search/search?q=" ++
      quotePlus ("search id=" ++ eventIdOf e)

/-- The explicit actor name: `event.get("actor", {}).get("name")`
(engine.py lines 135-136). -/
def actorNameOf (e : Event) : Option String := getStr? (getObj e "actor") "name"

/-- The type-discriminated triples of `map_event_to_rdf` (engine.py lines
139-202), in source order.  They depend only on the event. -/
def branchTriples (e : Event) (ev : Term) (event_type : String)
    (actor_name : Option String) : List Triple :=
  if event_type = "file_access" then
    let file_info := getObj e "file"
    let user_info := getObj e "user"
    let owner_name := getStrD user_info "name" "unknown"
    let effective_actor := pyOrElse actor_name owner_name
    [(ev, rdfType, ucoObs "File"),
     (ev, ucoObs "fileName", Term.lit (getStrD file_info "name" "unknown"))] ++
    (match truthyStr (getStr? file_info "path") with
     | some p => [(ev, ucoObs "filePath", Term.lit p)]
     | none => []) ++
    [(ev, ucoObs "owner", Term.lit owner_name)] ++
    (if effective_actor ≠ "" && effective_actor ≠ "unknown" then
       [(ev, pact "actorName", Term.lit effective_actor)]
     else [])
  else if event_type = "network_connection" then
    let dest := getObj e "destination"
    [(ev, rdfType, ucoObs "NetworkConnection"),
     (ev, ucoObs "destinationPort", Term.intLit (getIntD dest "port" 0))] ++
    (match truthyStr (getStr? dest "ip") with
     | some ip => [(ev, ucoObs "destinationAddress", Term.lit ip)]
     | none => []) ++
    [(ev, ucoObs "protocol", Term.lit (getStrD e "protocol" "tcp"))] ++
    (match truthyStr actor_name with
     | some a => [(ev, pact "actorName", Term.lit a)]
     | none => [])
  else if event_type = "authentication" then
    let user_info := getObj e "user"
    let login_name := getStrD user_info "name" "unknown"
    let effective_actor := pyOrElse actor_name login_name
    [(ev, rdfType, ucoObs "Account"),
     (ev, pact "authResult", Term.lit (getStrD e "result" "unknown")),
     (ev, pact "authMethod", Term.lit (getStrD e "method" "unknown")),
     (ev, ucoObs "accountLogin", Term.lit login_name)] ++
    (if effective_actor ≠ "" && effective_actor ≠ "unknown" then
       [(ev, pact "actorName", Term.lit effective_actor)]
     else [])
  else if event_type = "api_call" then
    [(ev, rdfType, ucoObs "URL"),
     (ev, pact "apiEndpoint", Term.lit (getStrD e "endpoint" "")),
     (ev, pact "apiMethod", Term.lit (getStrD e "method" "GET")),
     (ev, pact "apiStatus", Term.intLit (getIntD e "status_code" 0))] ++
    (match truthyStr actor_name with
     | some a => [(ev, pact "actorName", Term.lit a)]
     | none => [])
  else if event_type = "config_change" then
    let user_info := getObj e "user"
    let changed_by := getStrD user_info "name" "unknown"
    let effective_actor := pyOrElse actor_name changed_by
    [(ev, rdfType, ucoObs "File"),
     (ev, pact "configKey", Term.lit (getStrD e "key" "")),
     (ev, pact "configOldValue", Term.lit (pyStr ((e.lookup "old_value").getD (JVal.jstr "")))),
     (ev, pact "configNewValue", Term.lit (pyStr ((e.lookup "new_value").getD (JVal.jstr "")))),
     (ev, pact "changedBy", Term.lit changed_by)] ++
    (if effective_actor ≠ "" && effective_actor ≠ "unknown" then
       [(ev, pact "actorName", Term.lit effective_actor)]
     else [])
  else
    [(ev, rdfType, pact "GenericEvidence"),
     (ev, pact "rawEventData", Term.lit (jsonDumps (JVal.jobj e)))]

/-- The unconditional head triples of `map_event_to_rdf` (engine.py lines
126-128): source link, event id, event type. -/
def baseTriples (e : Event) : List Triple :=
  [(evidenceUriOf e, pact "evidenceSourceUrl", Term.lit (sourceUrlOf e)),
   (evidenceUriOf e, pact "eventId", Term.lit (eventIdOf e)),
   (evidenceUriOf e, pact "eventType", Term.lit (getStrD e "type" "unknown"))]

/-- The system URI an event resolves to (explicit field or per-type default,
sanitized — engine.py lines 130-132 with 53-66). -/
def systemUriOf (e : Event) : Term :=
  pact (sanitizeSystemName (resolvedSystemName (getStr? e "system") (getStrD e "type" "unknown")))

/-- `map_event_to_rdf` (engine.py lines 96-207): add one event's triples to
the graph, returning `(graph, evidence_node, event_id, system_uri)`. -/
def map_event_to_rdf (g : Graph) (e : Event) : Graph × Term × String × Term :=
  let event_type := getStrD e "type" "unknown"
  let g1 := insertAll g (baseTriples e)
  let rs := resolve_system_uri g1 (getStr? e "system") event_type
  let g3 := insertAll rs.1 (branchTriples e (evidenceUriOf e) event_type (actorNameOf e))
  let g4 := gInsert g3 (rs.2, pact "hasComponent", evidenceUriOf e)
  (g4, evidenceUriOf e, eventIdOf e, rs.2)

/-! ### `run_assessment` (engine.py lines 210-334) -/

/-- One result of the external SHACL validator: a violation focus node with
its message (the collaborator contract of spec §6,
`validate(dataGraph, ruleGraph) -> set<FocusNode, Message>`). -/
structure VResult where
  focus : Term
  message : String
deriving DecidableEq, Repr

/-- The validator as a pluggable collaborator: from the assembled data graph
to its violation results (pyshacl `validate`, engine.py lines 280-286). -/
abbrev Validator := Graph → List VResult

/-- One entry of `evidence_tracker` (engine.py lines 266-271). -/
structure TrackerItem where
  node : Term
  id : String
  typ : String
  system_uri : Term
deriving DecidableEq, Repr

/-- The per-event system filter (engine.py lines 257-259): skip the event
only when the filter list is truthy, the event's explicit `system` field is
truthy, and that explicit value is not in the list. -/
def keepEvent (target_systems : Option (List String)) (e : Event) : Bool :=
  match target_systems with
  | none => true
  | some ts =>
    if ts.isEmpty then true
    else
      match truthyStr (getStr? e "system") with
      | none => true
      | some s => s ∈ ts

/-- The mapping loop of `run_assessment` (engine.py lines 255-271): filter
by system, map each kept event to RDF, and build the evidence tracker. -/
def mapEvents (target_systems : Option (List String)) (g : Graph) :
    List Event → Graph × List TrackerItem
  | [] => (g, [])
  | e :: rest =>
    if keepEvent target_systems e then
      let m := map_event_to_rdf g e
      let r := mapEvents target_systems m.1 rest
      (r.1, ⟨m.2.1, m.2.2.1, getStrD e "type" "unknown", m.2.2.2⟩ :: r.2)
    else
      mapEvents target_systems g rest

/-- Copy each violation message onto its focus node (engine.py lines 290-297). -/
def attachViolations (g : Graph) : List VResult → Graph
  | [] => g
  | r :: rest =>
    attachViolations (gInsert g (r.focus, pact "violationMessage", Term.lit r.message)) rest

/-- `str(target_control).split("#")[-1]` (engine.py line 308). -/
def localName : Term → String
  | Term.uri _ s => s
  | Term.lit s => s
  | Term.intLit n => toString n
  | Term.timeLit n => toString n
  | Term.bnode n => toString n

/-- Control-name normalisation (engine.py line 310):
`control_name.lower().replace("control_", "").replace("-", "").replace("_", "")`. -/
def normControl (control_name : String) : String :=
  pyReplace (pyReplace (pyReplace (pyLower control_name) "control_" "") "-" "") "_" ""

/-- Framework-filter normalisation (engine.py lines 314-315):
`tf.lower().replace("-", "").replace("_", "").replace(" ", "")`. -/
def normFramework (tf : String) : String :=
  pyReplace (pyReplace (pyReplace (pyLower tf) "-" "") "_" "") " " ""

/-- `is_targeted` (engine.py lines 312-317): some filter matches the control
by normalized bidirectional substring containment. -/
def isTargeted (control_name : String) (target_frameworks : List String) : Bool :=
  target_frameworks.any fun tf =>
    isSubstrOf (normControl control_name).data (normFramework tf).data ||
    isSubstrOf (normFramework tf).data (normControl control_name).data

/-- One emitted Assessment record (the triples of engine.py lines 321-332,
in structured form: blank node, evidence, control, verdict, scan id). -/
structure AssessRec where
  node : Term
  evidence : Term
  control : Term
  verdict : String
  scanId : String
deriving DecidableEq, Repr

/-- `(None, SH.focusNode, item['node']) in results_graph` (engine.py line
330): the evidence node occurs among the validator's focus nodes. -/
def inViolationSet (results : List VResult) (node : Term) : Bool :=
  results.any fun r => r.focus = node

/-- The triples one assessment contributes (engine.py lines 321-332). -/
def assessTriples (node : Term) (item : TrackerItem) (target_control : Term)
    (scan_uuid : String) (tstamp : Nat) (verdict : String) : List Triple :=
  [(node, rdfType, pact "ComplianceAssessment"),
   (node, rdfsLabel, Term.lit ("Check for " ++ item.id)),
   (node, pact "generatedAt", Term.timeLit tstamp),
   (node, pact "evaluatedEvidence", item.node),
   (node, pact "validatesControl", target_control),
   (node, pact "scanId", Term.lit scan_uuid),
   (node, pact "hasVerdict", Term.lit verdict)]

/-- The assessment-generation loop (engine.py lines 302-332).  `ctr` numbers
the fresh blank nodes.  Returns the grown graph and the emitted records. -/
def genAssessments (results : List VResult) (target_frameworks : Option (List String))
    (scan_uuid : String) (tstamp : Nat) :
    Graph → Nat → List TrackerItem → Graph × List AssessRec
  | g, _, [] => (g, [])
  | g, ctr, item :: rest =>
    let target_control := resolve_control_uri item.typ
    let skip :=
      match target_frameworks with
      | none => false
      | some tfs => !tfs.isEmpty && !isTargeted (localName target_control) tfs
    if skip then
      genAssessments results target_frameworks scan_uuid tstamp g ctr rest
    else
      let verdict := if inViolationSet results item.node then "FAIL" else "PASS"
      let node := Term.bnode ctr
      let g1 := insertAll g (assessTriples node item target_control scan_uuid tstamp verdict)
      let r := genAssessments results target_frameworks scan_uuid tstamp g1 (ctr + 1) rest
      (r.1, ⟨node, item.node, target_control, verdict, scan_uuid⟩ :: r.2)

/-- The data graph as assembled just before validation: the loaded context
plus the mapped events (engine.py lines 236-271). -/
def assembledGraph (context : Graph) (target_systems : Option (List String))
    (events : List Event) : Graph :=
  (mapEvents target_systems context events).1

/-- `run_assessment` (engine.py lines 210-334).  `context` is the parsed
system-context and controls files, `validator` the external SHACL validator,
`scan_uuid` the fresh UUID and `tstamp` the scan-wide timestamp.  Returns
the scan URI, the scan's data graph and the emitted assessment records. -/
def run_assessment (events : List Event) (context : Graph) (validator : Validator)
    (target_systems target_frameworks : Option (List String))
    (scan_uuid : String) (tstamp : Nat) :
    String × Graph × List AssessRec :=
  let scan_uri := "http://your-org.com/ns/pact/scan/" ++ scan_uuid
  let m := mapEvents target_systems context events
  let results := validator m.1
  let g2 := attachViolations m.1 results
  let r := genAssessments results target_frameworks scan_uuid tstamp g2 0 m.2
  (scan_uri, r.1, r.2)

/-! ## `app/core/store.py`: the temporal graph store -/

/-- One quad of the rdflib `Dataset`: named graph, subject, predicate, object. -/
structure Quad where
  g : Term
  s : Term
  p : Term
  o : Term
deriving DecidableEq, Repr

/-- Set-semantics insertion into the dataset. -/
def qInsert (l : List Quad) (q : Quad) : List Quad :=
  if q ∈ l then l else q :: l

/-- Register a named-graph context (rdflib `Dataset.graph(uri)` creates it). -/
def cInsert (l : List Term) (c : Term) : List Term :=
  if c ∈ l then l else c :: l

/-- Outcome of a Python call that either returns or raises. -/
inductive PyResult (α : Type) where
  | ok (a : α)
  | raised (msg : String)
deriving DecidableEq, Repr

/-- The store's state: the in-memory dataset (named-graph contexts plus
quads), the durable file's content, and the temporary file if one exists.
The durable content is the serialized dataset (byte-identity of the file is
equality of this snapshot). -/
structure StoreState where
  contexts : List Term
  quads : List Quad
  disk : Option (List Term × List Quad)
  temp : Option (List Term × List Quad)
deriving DecidableEq, Repr

/-- Which step of `PACTStore.save` fails, if any (injected I/O behaviour). -/
inductive SaveOutcome where
  | ok
  | serializeFail
  | moveFail
deriving DecidableEq, Repr

/-- `self.ds.serialize(...)`: the full in-memory dataset, serialized. -/
def serializeStore (st : StoreState) : List Term × List Quad :=
  (st.contexts, st.quads)

/-- `PACTStore.save` (store.py lines 49-66): create a temp file, serialize
the whole dataset into it, atomically rename it over the durable file; on
any failure remove the temp file and re-raise. -/
def PACTStore.save (st : StoreState) (io : SaveOutcome) : StoreState × PyResult Unit :=
  let st1 : StoreState := { st with temp := some ([], []) }
  match io with
  | SaveOutcome.serializeFail =>
    ({ st1 with temp := none }, PyResult.raised "serialize failed")
  | SaveOutcome.moveFail =>
    let st2 : StoreState := { st1 with temp := some (serializeStore st1) }
    ({ st2 with temp := none }, PyResult.raised "move failed")
  | SaveOutcome.ok =>
    let st2 : StoreState := { st1 with temp := some (serializeStore st1) }
    ({ st2 with disk := st2.temp, temp := none }, PyResult.ok ())

/-- The quads a scan graph contributes under its named-graph URI. -/
def scanQuads (uri : Term) (graph_data : List Triple) : List Quad :=
  graph_data.map fun t => ⟨uri, t.1, t.2.1, t.2.2⟩

/-- `PACTStore.add_graph` (store.py lines 68-78): merge the scan's triples
into the named graph inside the dataset, then persist via `save`. -/
def PACTStore.add_graph (st : StoreState) (uri : Term) (graph_data : List Triple)
    (io : SaveOutcome) : StoreState × PyResult Unit :=
  let st1 : StoreState :=
    { st with contexts := cInsert st.contexts uri,
              quads := (scanQuads uri graph_data).foldl qInsert st.quads }
  PACTStore.save st1 io

/-- `PACTStore.get_stats` (store.py lines 89-95): total triples, total graphs. -/
def PACTStore.get_stats (st : StoreState) : Nat × Nat :=
  (st.quads.length, st.contexts.length)

/-- rdflib's always-present default graph; the fixed context (framework and
threat mappings) is parsed into it at startup. -/
def rdflibDefaultGraph : Term := Term.uri NS.plain "urn:x-rdflib:default"

/-- A freshly initialised store: no durable file yet, default context only,
global context quads loaded (store.py lines 14-39). -/
def initStore (contextQuads : List Quad) : StoreState :=
  { contexts := [rdflibDefaultGraph], quads := contextQuads, disk := none, temp := none }

/-- The store's public operations (`query` and `get_stats` are read-only). -/
inductive StoreOp where
  | addGraph (uri : Term) (graph_data : List Triple) (io : SaveOutcome)
  | saveOp (io : SaveOutcome)
  | queryOp
  | statsOp
deriving DecidableEq, Repr

def applyOp (st : StoreState) : StoreOp → StoreState
  | StoreOp.addGraph u d io => (PACTStore.add_graph st u d io).1
  | StoreOp.saveOp io => (PACTStore.save st io).1
  | StoreOp.queryOp => st
  | StoreOp.statsOp => st

def runOps (st : StoreState) (ops : List StoreOp) : StoreState :=
  ops.foldl applyOp st

/-! ## `app/api/v1/endpoints/compliance.py` -/

/-- `xsd:dateTime` comparison in the SPARQL `FILTER (?time2 > ?time1)`:
defined (and true) only on two dateTime literals. -/
def timeGT (a b : Term) : Bool :=
  match a, b with
  | Term.timeLit x, Term.timeLit y => y < x
  | _, _ => false

def timeVal : Term → Nat
  | Term.timeLit n => n
  | _ => 0

/-- Objects of `GRAPH g { s p ?o }` solutions. -/
def objsOf (ds : List Quad) (g s p : Term) : List Term :=
  ds.filterMap fun q => if q.g = g ∧ q.s = s ∧ q.p = p then some q.o else none

/-- Subjects of `GRAPH g { ?s p o }` solutions. -/
def subjsOf (ds : List Quad) (g p o : Term) : List Term :=
  ds.filterMap fun q => if q.g = g ∧ q.p = p ∧ q.o = o then some q.s else none

/-- Solutions of `GRAPH ?g { ?s p o }`. -/
def graphSubjsWith (ds : List Quad) (p o : Term) : List (Term × Term) :=
  ds.filterMap fun q => if q.p = p ∧ q.o = o then some (q.g, q.s) else none

/-- `OPTIONAL { s p ?o }`: left outer join — every binding if any, else the
single unbound row. -/
def optObjs (ds : List Quad) (g s p : Term) : List (Option Term) :=
  match objsOf ds g s p with
  | [] => [none]
  | l => l.map some

/-- One row of the drift query's SELECT (compliance.py lines 93-94). -/
structure DriftRow where
  systemName : Term
  controlName : Term
  identifier : Term
  time1 : Term
  time2 : Term
  deepLink : Term
  actor : Option Term
  ownerName : Option Term
  changedBy : Option Term
  eventType : Option Term
  filePath : Option Term
  violationMsg : Option Term
deriving DecidableEq, Repr

/-- All solution mappings of the drift query's WHERE clause before the
timestamp filter (compliance.py lines 95-126), one row per solution. -/
def driftCandidates (ds : List Quad) : List DriftRow :=
  (graphSubjsWith ds (pact "hasVerdict") (Term.lit "FAIL")).flatMap fun ga2 =>
  (objsOf ds ga2.1 ga2.2 (pact "validatesControl")).flatMap fun control =>
  (objsOf ds ga2.1 ga2.2 (pact "evaluatedEvidence")).flatMap fun ev2 =>
  (objsOf ds ga2.1 ga2.2 (pact "generatedAt")).flatMap fun time2 =>
  (objsOf ds ga2.1 ev2 (ucoObs "fileName")).flatMap fun identifier =>
  (objsOf ds ga2.1 ev2 (pact "evidenceSourceUrl")).flatMap fun deepLink =>
  (subjsOf ds ga2.1 (pact "hasComponent") ev2).flatMap fun system =>
  (objsOf ds ga2.1 system rdfsLabel).flatMap fun systemName =>
  (objsOf ds ga2.1 control rdfsLabel).flatMap fun controlName =>
  (optObjs ds ga2.1 ev2 (pact "actorName")).flatMap fun aName =>
  (optObjs ds ga2.1 ev2 (ucoObs "owner")).flatMap fun oName =>
  (optObjs ds ga2.1 ev2 (pact "changedBy")).flatMap fun cBy =>
  (optObjs ds ga2.1 ev2 (pact "eventType")).flatMap fun eTyp =>
  (optObjs ds ga2.1 ev2 (ucoObs "filePath")).flatMap fun fPath =>
  (optObjs ds ga2.1 ev2 (pact "violationMessage")).flatMap fun vMsg =>
  (graphSubjsWith ds (pact "hasVerdict") (Term.lit "PASS")).flatMap fun ga1 =>
  (objsOf ds ga1.1 ga1.2 (pact "evaluatedEvidence")).flatMap fun ev1 =>
  (objsOf ds ga1.1 ga1.2 (pact "generatedAt")).flatMap fun time1 =>
  if (⟨ga1.1, ga1.2, pact "validatesControl", control⟩ : Quad) ∈ ds ∧
     (⟨ga1.1, ev1, ucoObs "fileName", identifier⟩ : Quad) ∈ ds then
    [⟨systemName, controlName, identifier, time1, time2, deepLink,
      aName, oName, cBy, eTyp, fPath, vMsg⟩]
  else []

/-- Ordering used by `ORDER BY DESC(?time2)`. -/
def driftLE (a b : DriftRow) : Prop := timeVal b.time2 ≤ timeVal a.time2

instance : DecidableRel driftLE := fun _ _ => Nat.decLe _ _

instance : IsTotal DriftRow driftLE := ⟨fun a b => Nat.le_total (timeVal b.time2) (timeVal a.time2)⟩

instance : IsTrans DriftRow driftLE := ⟨fun _ _ _ h1 h2 => Nat.le_trans h2 h1⟩

/-- `get_drift` (compliance.py lines 82-160): the WHERE solutions, filtered
by `FILTER (?time2 > ?time1)`, ordered by FAIL timestamp descending. -/
def get_drift (ds : List Quad) : List DriftRow :=
  ((driftCandidates ds).filter fun r => timeGT r.time2 r.time1).insertionSort driftLE

/-! ### Threat-correlation filter validation (compliance.py lines 22, 163-217) -/

/-- The character class of `_VULN_FILTER_RE`, i.e. of the raw-string pattern
`^[A-Za-z0-9 _\\-\\.:/]{1,64}$`.  Inside the class, each doubled backslash
is an escaped (literal) backslash, so `\\-\\` parses as the one-character
range backslash-to-backslash: the class admits the backslash and does NOT
admit the hyphen (the hyphen in the pattern is the range operator). -/
def vulnAllowedChar (c : Char) : Bool :=
  ('A' ≤ c && c ≤ 'Z') || ('a' ≤ c && c ≤ 'z') || ('0' ≤ c && c ≤ '9') ||
    c = ' ' || c = '_' || c = '\\' || c = '.' || c = ':' || c = '/'

/-- `_VULN_FILTER_RE.fullmatch(vulnerability)` (compliance.py line 189). -/
def vulnFilterMatches (s : String) : Bool :=
  1 ≤ s.length && s.length ≤ 64 && s.data.all vulnAllowedChar

/-- Escaping applied before embedding the filter in the SPARQL literal
(compliance.py line 196). -/
def escapeSparqlLit (v : String) : String :=
  pyReplace (pyReplace v "\\" "\\\\") "\"" "\\\""

/-- Outcome of `check_threat_mitigation`'s request handling: the HTTP 400
invalid-filter rejection (raised before any query is built), or the query
that gets executed (unfiltered, or with the escaped filter spliced in). -/
inductive ThreatOutcome where
  | invalidFilter
  | unfilteredQuery
  | filteredQuery (escapedFilter : String)
deriving DecidableEq, Repr

/-- `check_threat_mitigation` (compliance.py lines 163-217), up to the query
construction: a falsy filter selects the unfiltered query; otherwise the
filter must fullmatch `_VULN_FILTER_RE` or the request is rejected with
HTTP 400 before any query is built. -/
def check_threat_mitigation (vulnerability : Option String) : ThreatOutcome :=
  match truthyStr vulnerability with
  | none => ThreatOutcome.unfilteredQuery
  | some v =>
    if !vulnFilterMatches v then ThreatOutcome.invalidFilter
    else ThreatOutcome.filteredQuery (escapeSparqlLit v)

/-! # Claims

One theorem per claim of the specification audit, with witnesses for the
theorems that carry hypotheses and counterexamples where the claim fails. -/

/-- C10: every vulnerability filter string containing a hyphen — in
particular every CVE identifier — is rejected by `check_threat_mitigation`
with the HTTP 400 invalid-filter outcome before any query is built, because
the compiled character class of `_VULN_FILTER_RE` admits the backslash but
not the hyphen. -/
theorem c10_hyphen_filter_rejected (s : String) (h : '-' ∈ s.data) :
    check_threat_mitigation (some s) = ThreatOutcome.invalidFilter ∧
      vulnAllowedChar '\\' = true ∧ vulnAllowedChar '-' = false := by
  refine ⟨?_, by decide, by decide⟩
  have hne : s.isEmpty = false := by
    cases hemp : s.isEmpty
    · rfl
    · rw [String.isEmpty_iff] at hemp
      subst hemp
      exact absurd h (by decide)
  have hall : s.data.all vulnAllowedChar = false := by
    rw [List.all_eq_false]
    exact ⟨'-', h, by decide⟩
  have hmatch : vulnFilterMatches s = false := by
    unfold vulnFilterMatches
    rw [hall]
    simp
  unfold check_threat_mitigation truthyStr
  simp [hne, hmatch]

/-- Witness for C10 at the concrete filter string CVE-2024-3094. -/
theorem c10_witness :
    '-' ∈ "CVE-2024-3094".data ∧
      check_threat_mitigation (some "CVE-2024-3094") = ThreatOutcome.invalidFilter :=
  ⟨by decide, (c10_hyphen_filter_rejected "CVE-2024-3094" (by decide)).1⟩

/-- C3: if serialization or any later step of `PACTStore.save` fails, the
temporary file is removed, the durable file is byte-identical to its
pre-call content, and the error propagates to the caller; and in every case
the durable file is only ever replaced by the fully serialized dataset
(the rename of a fully written temporary file). -/
theorem c3_save_atomic (st : StoreState) (io : SaveOutcome) (h : io ≠ SaveOutcome.ok) :
    ((PACTStore.save st io).1.disk = st.disk ∧
      (PACTStore.save st io).1.temp = none ∧
      ∃ msg, (PACTStore.save st io).2 = PyResult.raised msg) ∧
    ∀ st' : StoreState, ∀ io' : SaveOutcome,
      (PACTStore.save st' io').1.disk = st'.disk ∨
        (PACTStore.save st' io').1.disk = some (serializeStore st') := by
  constructor
  · cases io with
    | ok => exact absurd rfl h
    | serializeFail => exact ⟨rfl, rfl, "serialize failed", rfl⟩
    | moveFail => exact ⟨rfl, rfl, "move failed", rfl⟩
  · intro st' io'
    cases io' with
    | ok => exact Or.inr rfl
    | serializeFail => exact Or.inl rfl
    | moveFail => exact Or.inl rfl

/-- Witness for C3: a failing serialize on a fresh store. -/
theorem c3_witness :
    (PACTStore.save (initStore []) SaveOutcome.serializeFail).1.disk = (initStore []).disk ∧
      (PACTStore.save (initStore []) SaveOutcome.serializeFail).1.temp = none :=
  (fun p => ⟨p.1.1, p.1.2.1⟩)
    (c3_save_atomic (initStore []) SaveOutcome.serializeFail (by decide))

/-- C4 counterexample: with a failing save, `PACTStore.add_graph` raises —
but the in-memory dataset is NOT unchanged: it now contains the attempted
scan's triples (only the durable file is unchanged).  This refutes the
claim that on failure the store's state, including its in-memory dataset,
contains no triples of the attempted scan. -/
theorem c4_counterexample :
    (PACTStore.add_graph (initStore []) (Term.uri NS.plain "scan1")
        [(pact "evidence/e1", pact "eventId", Term.lit "e1")] SaveOutcome.serializeFail).2
      = PyResult.raised "serialize failed" ∧
    (⟨Term.uri NS.plain "scan1", pact "evidence/e1", pact "eventId", Term.lit "e1"⟩ : Quad)
      ∈ (PACTStore.add_graph (initStore []) (Term.uri NS.plain "scan1")
          [(pact "evidence/e1", pact "eventId", Term.lit "e1")] SaveOutcome.serializeFail).1.quads ∧
    (PACTStore.add_graph (initStore []) (Term.uri NS.plain "scan1")
        [(pact "evidence/e1", pact "eventId", Term.lit "e1")] SaveOutcome.serializeFail).1.quads
      ≠ (initStore []).quads := by
  decide

/-- C4 (amended): if `save` fails during `PACTStore.add_graph`, the durable
file is unchanged and the error propagates to the caller — but the
in-memory dataset retains the attempted scan's merged triples and context. -/
theorem c4_add_graph_failure (st : StoreState) (uri : Term) (graph_data : List Triple)
    (io : SaveOutcome) (h : io ≠ SaveOutcome.ok) :
    (PACTStore.add_graph st uri graph_data io).1.disk = st.disk ∧
    (∃ msg, (PACTStore.add_graph st uri graph_data io).2 = PyResult.raised msg) ∧
    (PACTStore.add_graph st uri graph_data io).1.quads
      = (scanQuads uri graph_data).foldl qInsert st.quads ∧
    (PACTStore.add_graph st uri graph_data io).1.contexts = cInsert st.contexts uri := by
  cases io with
  | ok => exact absurd rfl h
  | serializeFail => exact ⟨rfl, ⟨"serialize failed", rfl⟩, rfl, rfl⟩
  | moveFail => exact ⟨rfl, ⟨"move failed", rfl⟩, rfl, rfl⟩

/-- Witness for C4 (amended): the failing merge of the counterexample. -/
theorem c4_witness :
    (PACTStore.add_graph (initStore []) (Term.uri NS.plain "scan1")
        [(pact "evidence/e1", pact "eventId", Term.lit "e1")] SaveOutcome.serializeFail).1.disk
      = (initStore []).disk ∧
    ∃ msg, (PACTStore.add_graph (initStore []) (Term.uri NS.plain "scan1")
        [(pact "evidence/e1", pact "eventId", Term.lit "e1")] SaveOutcome.serializeFail).2
      = PyResult.raised msg :=
  (fun p => ⟨p.1, p.2.1⟩)
    (c4_add_graph_failure (initStore []) (Term.uri NS.plain "scan1")
      [(pact "evidence/e1", pact "eventId", Term.lit "e1")] SaveOutcome.serializeFail (by decide))

/-! ### Store growth lemmas for C9 -/

theorem mem_qInsert_of_mem {l : List Quad} {q' : Quad} (q : Quad) (h : q' ∈ l) :
    q' ∈ qInsert l q := by
  unfold qInsert
  split
  · exact h
  · exact List.mem_cons_of_mem _ h

theorem length_le_qInsert (l : List Quad) (q : Quad) : l.length ≤ (qInsert l q).length := by
  unfold qInsert
  split
  · exact Nat.le_refl _
  · exact Nat.le_succ _

theorem mem_foldl_qInsert {l : List Quad} {q' : Quad} (qs : List Quad) (h : q' ∈ l) :
    q' ∈ qs.foldl qInsert l := by
  induction qs generalizing l with
  | nil => exact h
  | cons q rest ih => exact ih (mem_qInsert_of_mem q h)

theorem length_le_foldl_qInsert (l : List Quad) (qs : List Quad) :
    l.length ≤ (qs.foldl qInsert l).length := by
  induction qs generalizing l with
  | nil => exact Nat.le_refl _
  | cons q rest ih => exact Nat.le_trans (length_le_qInsert l q) (ih (qInsert l q))

theorem length_le_cInsert (l : List Term) (c : Term) : l.length ≤ (cInsert l c).length := by
  unfold cInsert
  split
  · exact Nat.le_refl _
  · exact Nat.le_succ _

theorem cInsert_of_not_mem {l : List Term} {c : Term} (h : c ∉ l) : cInsert l c = c :: l := by
  unfold cInsert
  simp [h]

theorem mem_cInsert_of_mem {l : List Term} {c' : Term} (c : Term) (h : c' ∈ l) :
    c' ∈ cInsert l c := by
  unfold cInsert
  split
  · exact h
  · exact List.mem_cons_of_mem _ h

/-- After any single save outcome, dataset contexts and quads are untouched. -/
theorem save_preserves_ds (st : StoreState) (io : SaveOutcome) :
    (PACTStore.save st io).1.contexts = st.contexts ∧ (PACTStore.save st io).1.quads = st.quads := by
  cases io <;> exact ⟨rfl, rfl⟩

theorem applyOp_addGraph_ds (st : StoreState) (u : Term) (d : List Triple) (io : SaveOutcome) :
    (applyOp st (StoreOp.addGraph u d io)).contexts = cInsert st.contexts u ∧
      (applyOp st (StoreOp.addGraph u d io)).quads = (scanQuads u d).foldl qInsert st.quads := by
  cases io <;> exact ⟨rfl, rfl⟩

/-- Any store operation only grows the dataset (quads are preserved, counts
never decrease). -/
theorem applyOp_monotone (st : StoreState) (op : StoreOp) :
    (∀ q ∈ st.quads, q ∈ (applyOp st op).quads) ∧
      st.quads.length ≤ (applyOp st op).quads.length ∧
      (∀ c ∈ st.contexts, c ∈ (applyOp st op).contexts) ∧
      st.contexts.length ≤ (applyOp st op).contexts.length := by
  cases op with
  | addGraph u d io =>
    rcases applyOp_addGraph_ds st u d io with ⟨hc, hq⟩
    rw [hc, hq]
    exact ⟨fun q hq' => mem_foldl_qInsert _ hq', length_le_foldl_qInsert _ _,
      fun c hc' => mem_cInsert_of_mem u hc', length_le_cInsert _ _⟩
  | saveOp io =>
    rcases save_preserves_ds st io with ⟨hc, hq⟩
    simp only [applyOp]
    rw [hc, hq]
    exact ⟨fun _ h => h, Nat.le_refl _, fun _ h => h, Nat.le_refl _⟩
  | queryOp => exact ⟨fun _ h => h, Nat.le_refl _, fun _ h => h, Nat.le_refl _⟩
  | statsOp => exact ⟨fun _ h => h, Nat.le_refl _, fun _ h => h, Nat.le_refl _⟩

theorem runOps_monotone (st : StoreState) (ops : List StoreOp) :
    (∀ q ∈ st.quads, q ∈ (runOps st ops).quads) ∧
      st.quads.length ≤ (runOps st ops).quads.length ∧
      st.contexts.length ≤ (runOps st ops).contexts.length := by
  induction ops generalizing st with
  | nil => exact ⟨fun _ h => h, Nat.le_refl _, Nat.le_refl _⟩
  | cons op rest ih =>
    rcases applyOp_monotone st op with ⟨h1, h2, _, h4⟩
    rcases ih (applyOp st op) with ⟨g1, g2, g4⟩
    exact ⟨fun q hq => g1 q (h1 q hq), Nat.le_trans h2 g2, Nat.le_trans h4 g4⟩

/-- The `addGraph` sequence of an ingestion run. -/
def ingestOps (scans : List (Term × List Triple)) : List StoreOp :=
  scans.map fun p => StoreOp.addGraph p.1 p.2 SaveOutcome.ok

theorem ingest_contexts_count (scans : List (Term × List Triple)) (st : StoreState)
    (hnd : (scans.map Prod.fst).Nodup)
    (hfresh : ∀ u ∈ scans.map Prod.fst, u ∉ st.contexts) :
    (runOps st (ingestOps scans)).contexts.length = st.contexts.length + scans.length := by
  induction scans generalizing st with
  | nil => rfl
  | cons p rest ih =>
    have hu : p.1 ∉ st.contexts := hfresh p.1 (by simp)
    have hstep : (applyOp st (StoreOp.addGraph p.1 p.2 SaveOutcome.ok)).contexts
        = p.1 :: st.contexts := by
      rw [(applyOp_addGraph_ds st p.1 p.2 SaveOutcome.ok).1, cInsert_of_not_mem hu]
    have hnd2 : (p.1 :: rest.map Prod.fst).Nodup := by
      simpa using hnd
    have hnd' : (rest.map Prod.fst).Nodup := (List.nodup_cons.mp hnd2).2
    have hne : ∀ u ∈ rest.map Prod.fst, u ≠ p.1 := by
      intro u hu' heq
      exact (List.nodup_cons.mp hnd2).1 (heq ▸ hu')
    have hfresh' : ∀ u ∈ rest.map Prod.fst, u ∉ (applyOp st (StoreOp.addGraph p.1 p.2 SaveOutcome.ok)).contexts := by
      intro u hu'
      rw [hstep]
      intro hmem
      rcases List.mem_cons.mp hmem with heq | hmem'
      · exact hne u hu' heq
      · exact hfresh u (List.mem_cons_of_mem _ hu') hmem'
    show (runOps (applyOp st (StoreOp.addGraph p.1 p.2 SaveOutcome.ok)) (ingestOps rest)).contexts.length = _
    rw [ih _ hnd' hfresh', hstep]
    simp [Nat.add_comm, Nat.add_assoc]
    omega

/-- C9: starting from an empty store, N successful ingestions with fresh
scan URIs leave exactly N scan named graphs plus the default context graph;
and over every sequence of store operations, committed quads are preserved
and the total triple count and graph count reported by get_stats never
decrease — no operation deletes from the dataset. -/
theorem c9_append_only (contextQuads : List Quad) (scans : List (Term × List Triple))
    (hnd : (scans.map Prod.fst).Nodup)
    (hfresh : ∀ u ∈ scans.map Prod.fst, u ≠ rdflibDefaultGraph) :
    (runOps (initStore contextQuads) (ingestOps scans)).contexts.length = scans.length + 1 ∧
    ∀ st : StoreState, ∀ ops : List StoreOp,
      (∀ q ∈ st.quads, q ∈ (runOps st ops).quads) ∧
      (PACTStore.get_stats st).1 ≤ (PACTStore.get_stats (runOps st ops)).1 ∧
      (PACTStore.get_stats st).2 ≤ (PACTStore.get_stats (runOps st ops)).2 := by
  constructor
  · have hfresh' : ∀ u ∈ scans.map Prod.fst, u ∉ (initStore contextQuads).contexts := by
      intro u hu hmem
      rcases List.mem_cons.mp hmem with heq | hmem'
      · exact hfresh u hu heq
      · cases hmem'
    rw [ingest_contexts_count scans _ hnd hfresh']
    show 1 + scans.length = scans.length + 1
    omega
  · intro st ops
    exact runOps_monotone st ops

/-- Witness for C9: two ingestions with distinct fresh scan URIs. -/
theorem c9_witness :
    (runOps (initStore [])
        (ingestOps [(Term.uri NS.plain "scan1", [(pact "a", pact "b", pact "c")]),
                    (Term.uri NS.plain "scan2", [(pact "a", pact "b", pact "c")])])).contexts.length
      = 2 + 1 :=
  (c9_append_only []
    [(Term.uri NS.plain "scan1", [(pact "a", pact "b", pact "c")]),
     (Term.uri NS.plain "scan2", [(pact "a", pact "b", pact "c")])]
    (by decide) (by decide)).1

/-! ### Normalizer lemmas for C2 and C8 -/

theorem resolve_snd (g : Graph) (sn : Option String) (et : String) :
    (resolve_system_uri g sn et).2 = pact (sanitizeSystemName (resolvedSystemName sn et)) := by
  simp only [resolve_system_uri]
  split <;> rfl

theorem mem_resolve_of_mem {g : Graph} {t : Triple} (sn : Option String) (et : String)
    (h : t ∈ g) : t ∈ (resolve_system_uri g sn et).1 := by
  simp only [resolve_system_uri]
  split
  · exact h
  · exact mem_insertAll_of_mem _ h

theorem resolve_type_mem (g : Graph) (sn : Option String) (et : String) :
    (pact (sanitizeSystemName (resolvedSystemName sn et)), rdfType, pact "System")
      ∈ (resolve_system_uri g sn et).1 := by
  simp only [resolve_system_uri]
  split
  · rename_i hmem
    exact hmem
  · exact mem_insertAll_of_mem_list (by simp)

theorem resolve_eq_of_mem {g : Graph} {sn : Option String} {et : String}
    (h : (pact (sanitizeSystemName (resolvedSystemName sn et)), rdfType, pact "System") ∈ g) :
    resolve_system_uri g sn et = (g, pact (sanitizeSystemName (resolvedSystemName sn et))) := by
  simp only [resolve_system_uri]
  rw [if_pos h]

theorem map_event_graph_eq (g : Graph) (e : Event) :
    (map_event_to_rdf g e).1 =
      gInsert
        (insertAll
          (resolve_system_uri (insertAll g (baseTriples e)) (getStr? e "system")
            (getStrD e "type" "unknown")).1
          (branchTriples e (evidenceUriOf e) (getStrD e "type" "unknown") (actorNameOf e)))
        ((resolve_system_uri (insertAll g (baseTriples e)) (getStr? e "system")
            (getStrD e "type" "unknown")).2,
          pact "hasComponent", evidenceUriOf e) := rfl

theorem map_event_components (g : Graph) (e : Event) :
    (map_event_to_rdf g e).2 = (evidenceUriOf e, eventIdOf e, systemUriOf e) := by
  have h4 : (map_event_to_rdf g e).2.2.2 = systemUriOf e := by
    show (resolve_system_uri (insertAll g (baseTriples e)) (getStr? e "system")
      (getStrD e "type" "unknown")).2 = systemUriOf e
    rw [resolve_snd]
    rfl
  exact Prod.ext_iff.mpr ⟨rfl, Prod.ext_iff.mpr ⟨rfl, h4⟩⟩

theorem mem_map_event_of_mem {g : Graph} {t : Triple} (e : Event) (h : t ∈ g) :
    t ∈ (map_event_to_rdf g e).1 := by
  rw [map_event_graph_eq]
  exact mem_gInsert_of_mem _ (mem_insertAll_of_mem _ (mem_resolve_of_mem _ _
    (mem_insertAll_of_mem _ h)))

theorem base_mem_map_event {t : Triple} (g : Graph) (e : Event) (h : t ∈ baseTriples e) :
    t ∈ (map_event_to_rdf g e).1 := by
  rw [map_event_graph_eq]
  exact mem_gInsert_of_mem _ (mem_insertAll_of_mem _ (mem_resolve_of_mem _ _
    (mem_insertAll_of_mem_list h)))

theorem branch_mem_map_event {t : Triple} (g : Graph) (e : Event)
    (h : t ∈ branchTriples e (evidenceUriOf e) (getStrD e "type" "unknown") (actorNameOf e)) :
    t ∈ (map_event_to_rdf g e).1 := by
  rw [map_event_graph_eq]
  exact mem_gInsert_of_mem _ (mem_insertAll_of_mem_list h)

theorem sys_mem_map_event (g : Graph) (e : Event) :
    (systemUriOf e, rdfType, pact "System") ∈ (map_event_to_rdf g e).1 := by
  unfold systemUriOf
  rw [map_event_graph_eq]
  exact mem_gInsert_of_mem _ (mem_insertAll_of_mem _ (resolve_type_mem _ _ _))

theorem comp_mem_map_event (g : Graph) (e : Event) :
    (systemUriOf e, pact "hasComponent", evidenceUriOf e) ∈ (map_event_to_rdf g e).1 := by
  unfold systemUriOf
  rw [map_event_graph_eq, resolve_snd]
  exact mem_gInsert_self _ _

/-- When everything an event contributes is already present, mapping it is
the identity on the graph. -/
theorem map_event_eq_of_mems {g : Graph} (e : Event)
    (hbase : ∀ t ∈ baseTriples e, t ∈ g)
    (hsys : (systemUriOf e, rdfType, pact "System") ∈ g)
    (hbranch : ∀ t ∈ branchTriples e (evidenceUriOf e) (getStrD e "type" "unknown")
      (actorNameOf e), t ∈ g)
    (hcomp : (systemUriOf e, pact "hasComponent", evidenceUriOf e) ∈ g) :
    map_event_to_rdf g e = (g, evidenceUriOf e, eventIdOf e, systemUriOf e) := by
  unfold systemUriOf at hsys hcomp
  have hb : insertAll g (baseTriples e) = g := insertAll_of_subset hbase
  have hr : resolve_system_uri (insertAll g (baseTriples e)) (getStr? e "system")
      (getStrD e "type" "unknown")
      = (insertAll g (baseTriples e),
         pact (sanitizeSystemName (resolvedSystemName (getStr? e "system")
           (getStrD e "type" "unknown")))) := by
    rw [hb]
    exact resolve_eq_of_mem hsys
  have hgr : (map_event_to_rdf g e).1 = g := by
    rw [map_event_graph_eq, hr]
    show gInsert (insertAll (insertAll g (baseTriples e)) _) _ = g
    rw [hb, insertAll_of_subset hbranch]
    exact gInsert_of_mem hcomp
  exact Prod.ext_iff.mpr ⟨hgr, map_event_components g e⟩

/-- C2: for an event without an explicit id, the evidence identifier is the
digest of the key-sorted serialisation of the event — a pure function of
the event's content — so mapping the same id-less event twice, from any two
starting graphs, yields the same Evidence URI, and re-mapping it into the
graph it already populated changes nothing (the triples merge). -/
theorem c2_idempotent_identity (e : Event) (g g' : Graph)
    (h : truthyStr (getStr? e "id") = none) :
    eventIdOf e = "auto-" ++ (sha256hex (jsonDumps (JVal.jobj e))).take 8 ∧
    (map_event_to_rdf g e).2.1 = (map_event_to_rdf g' e).2.1 ∧
    map_event_to_rdf (map_event_to_rdf g e).1 e = map_event_to_rdf g e := by
  refine ⟨?_, rfl, ?_⟩
  · unfold eventIdOf
    rw [h]
  · rw [map_event_eq_of_mems e
      (fun t ht => base_mem_map_event g e ht)
      (sys_mem_map_event g e)
      (fun t ht => branch_mem_map_event g e ht)
      (comp_mem_map_event g e)]
    exact Prod.ext_iff.mpr ⟨rfl, (map_event_components g e).symm⟩

/-- A concrete id-less file-access event. -/
def exIdLessEvent : Event :=
  [("type", JVal.jstr "file_access"),
   ("file", JVal.jobj [("name", JVal.jstr "sensitive_config.yaml"),
                       ("path", JVal.jstr "/etc/config")]),
   ("user", JVal.jobj [("name", JVal.jstr "root")])]

/-- Witness for C2: re-mapping a concrete id-less event is a no-op. -/
theorem c2_witness :
    truthyStr (getStr? exIdLessEvent "id") = none ∧
    map_event_to_rdf (map_event_to_rdf [] exIdLessEvent).1 exIdLessEvent
      = map_event_to_rdf [] exIdLessEvent :=
  ⟨by decide, (c2_idempotent_identity exIdLessEvent [] [] (by decide)).2.2⟩

/-! ### C8: actor attribution -/

/-- The actor-attribution rule the code actually implements (the amended
C8): the explicit actor name wins, with the type-specific fallback and the
non-empty/non-"unknown" gate for file_access, authentication and
config_change; network_connection and api_call record any truthy explicit
actor name — including the value "unknown" — and have no fallback; all
other types record no actor. -/
def recordedActorName (e : Event) : Option String :=
  let event_type := getStrD e "type" "unknown"
  let actor_name := actorNameOf e
  if event_type = "file_access" then
    let effective_actor := pyOrElse actor_name (getStrD (getObj e "user") "name" "unknown")
    if effective_actor ≠ "" && effective_actor ≠ "unknown" then some effective_actor else none
  else if event_type = "network_connection" then
    truthyStr actor_name
  else if event_type = "authentication" then
    let effective_actor := pyOrElse actor_name (getStrD (getObj e "user") "name" "unknown")
    if effective_actor ≠ "" && effective_actor ≠ "unknown" then some effective_actor else none
  else if event_type = "api_call" then
    truthyStr actor_name
  else if event_type = "config_change" then
    let effective_actor := pyOrElse actor_name (getStrD (getObj e "user") "name" "unknown")
    if effective_actor ≠ "" && effective_actor ≠ "unknown" then some effective_actor else none
  else none

theorem pact_inj {a b : String} : pact a = pact b ↔ a = b := by
  simp [pact]

theorem pact_eq_ucoObs {a b : String} : pact a = ucoObs b ↔ False := by
  simp [pact, ucoObs]

theorem pact_eq_rdfType {a : String} : pact a = rdfType ↔ False := by
  simp [pact, rdfType]

theorem pact_eq_rdfsLabel {a : String} : pact a = rdfsLabel ↔ False := by
  simp [pact, rdfsLabel]

theorem mem_resolve_iff_of_ne {g : Graph} {t : Triple} (sn : Option String) (et : String)
    (h1 : t.2.1 ≠ rdfType) (h2 : t.2.1 ≠ rdfsLabel) :
    t ∈ (resolve_system_uri g sn et).1 ↔ t ∈ g := by
  simp only [resolve_system_uri]
  split
  · exact Iff.rfl
  · rw [mem_insertAll_iff]
    constructor
    · rintro (h | h)
      · exact h
      · rcases List.mem_cons.mp h with rfl | h'
        · exact absurd rfl h1
        · rcases List.mem_cons.mp h' with rfl | h''
          · exact absurd rfl h2
          · cases h''
    · exact Or.inl

/-- The actorName triples among an event's type-specific triples are exactly
those the recorded-actor rule yields. -/
theorem actor_branch_iff (e : Event) (v : String) :
    ((evidenceUriOf e, pact "actorName", Term.lit v)
        ∈ branchTriples e (evidenceUriOf e) (getStrD e "type" "unknown") (actorNameOf e)) ↔
      recordedActorName e = some v := by
  unfold branchTriples recordedActorName
  by_cases h1 : getStrD e "type" "unknown" = "file_access"
  · rcases hpath : truthyStr (getStr? (getObj e "file") "path") with _ | p <;>
      simp [h1, hpath, Prod.ext_iff, pact_inj, pact_eq_ucoObs, pact_eq_rdfType] <;>
      (intros; exact eq_comm)
  · by_cases h2 : getStrD e "type" "unknown" = "network_connection"
    · rcases hip : truthyStr (getStr? (getObj e "destination") "ip") with _ | ip <;>
        rcases ha : truthyStr (actorNameOf e) with _ | a <;>
        simp [h1, h2, hip, ha, Prod.ext_iff, pact_inj, pact_eq_ucoObs, pact_eq_rdfType] <;>
        (intros; exact eq_comm)
    · by_cases h3 : getStrD e "type" "unknown" = "authentication"
      · simp [h1, h2, h3, Prod.ext_iff, pact_inj, pact_eq_ucoObs, pact_eq_rdfType] <;>
          (intros; exact eq_comm)
      · by_cases h4 : getStrD e "type" "unknown" = "api_call"
        · rcases ha : truthyStr (actorNameOf e) with _ | a <;>
            simp [h1, h2, h3, h4, ha, Prod.ext_iff, pact_inj, pact_eq_ucoObs, pact_eq_rdfType] <;>
            (intros; exact eq_comm)
        · by_cases h5 : getStrD e "type" "unknown" = "config_change"
          · simp [h1, h2, h3, h4, h5, Prod.ext_iff, pact_inj, pact_eq_ucoObs, pact_eq_rdfType] <;>
              (intros; exact eq_comm)
          · simp [h1, h2, h3, h4, h5, Prod.ext_iff, pact_inj, pact_eq_rdfType]

/-- C8 (amended): the actorName literal recorded on an event's Evidence node
is characterised, for every event type, by the recorded-actor rule —
explicit actor.name first, the type-specific subject fallback with the
non-empty/non-"unknown" gate for file_access, authentication and
config_change, a truthy-only gate (admitting "unknown") for
network_connection and api_call, and nothing for other types. -/
theorem c8_actor_attribution (e : Event) (g : Graph) (v : String) :
    ((evidenceUriOf e, pact "actorName", Term.lit v) ∈ (map_event_to_rdf g e).1) ↔
      ((evidenceUriOf e, pact "actorName", Term.lit v) ∈ g ∨
        recordedActorName e = some v) := by
  rw [map_event_graph_eq, mem_gInsert_iff, mem_insertAll_iff,
      mem_resolve_iff_of_ne _ _ (show pact "actorName" ≠ rdfType by decide)
        (show pact "actorName" ≠ rdfsLabel by decide), mem_insertAll_iff]
  have hc : ¬ ((evidenceUriOf e, pact "actorName", Term.lit v)
      = ((resolve_system_uri (insertAll g (baseTriples e)) (getStr? e "system")
          (getStrD e "type" "unknown")).2, pact "hasComponent", evidenceUriOf e)) := by
    simp [Prod.ext_iff, pact_inj]
  have hb : (evidenceUriOf e, pact "actorName", Term.lit v) ∉ baseTriples e := by
    simp [baseTriples, Prod.ext_iff, pact_inj]
  rw [or_iff_right hc, or_iff_left hb]
  exact or_congr_right (actor_branch_iff e v)

/-- A concrete api_call event whose explicit actor is named "unknown". -/
def exUnknownActorEvent : Event :=
  [("type", JVal.jstr "api_call"),
   ("id", JVal.jstr "api-1"),
   ("endpoint", JVal.jstr "/admin"),
   ("status_code", JVal.jnum 500),
   ("actor", JVal.jobj [("name", JVal.jstr "unknown")])]

/-- C8 counterexample: for api_call (and network_connection) events the code
adds the actorName triple whenever the explicit actor name is truthy, with
no check against "unknown" — refuting the claim that an actorName triple is
only added when the value is non-empty and not equal to "unknown". -/
theorem c8_counterexample :
    (evidenceUriOf exUnknownActorEvent, pact "actorName", Term.lit "unknown")
      ∈ (map_event_to_rdf [] exUnknownActorEvent).1 := by
  decide

/-! ### Assessment-generation lemmas for C1, C5, C7 -/

/-- Every emitted assessment stems from a tracker item, validates that
item's resolved control, and carries the verdict dictated by the validator's
violation set. -/
theorem genAssessments_evidence (results : List VResult) (tfs : Option (List String))
    (u : String) (t : Nat) :
    ∀ (tracker : List TrackerItem) (g : Graph) (ctr : Nat),
      ∀ rec ∈ (genAssessments results tfs u t g ctr tracker).2,
        ∃ item ∈ tracker, rec.evidence = item.node ∧
          rec.control = resolve_control_uri item.typ ∧
          rec.verdict = (if inViolationSet results item.node then "FAIL" else "PASS") := by
  intro tracker
  induction tracker with
  | nil =>
    intro g ctr rec hrec
    exact absurd hrec (by simp [genAssessments])
  | cons item rest ih =>
    intro g ctr rec hrec
    simp only [genAssessments] at hrec
    split at hrec
    · obtain ⟨it, hit, h⟩ := ih _ _ rec hrec
      exact ⟨it, List.mem_cons_of_mem _ hit, h⟩
    · rcases List.mem_cons.mp hrec with rfl | htail
      · exact ⟨item, List.mem_cons_self _ _, rfl, rfl, rfl⟩
      · obtain ⟨it, hit, h⟩ := ih _ _ rec htail
        exact ⟨it, List.mem_cons_of_mem _ hit, h⟩

theorem inViolationSet_iff (rs : List VResult) (n : Term) :
    inViolationSet rs n = true ↔ n ∈ rs.map VResult.focus := by
  simp only [inViolationSet, List.any_eq_true, decide_eq_true_eq, List.mem_map]

/-- C1: in every scan produced by run_assessment, each emitted Assessment
record carries verdict FAIL exactly when its Evidence node is among the
validator's violation focus nodes for this scan's assembled data graph, and
PASS exactly otherwise. -/
theorem c1_verdict_iff (events : List Event) (context : Graph) (validator : Validator)
    (ts tfs : Option (List String)) (u : String) (t : Nat) :
    ∀ rec ∈ (run_assessment events context validator ts tfs u t).2.2,
      (rec.verdict = "FAIL" ↔
        rec.evidence ∈ (validator (assembledGraph context ts events)).map VResult.focus) ∧
      (rec.verdict = "PASS" ↔
        rec.evidence ∉ (validator (assembledGraph context ts events)).map VResult.focus) := by
  intro rec hrec
  have hrec' : rec ∈ (genAssessments (validator (assembledGraph context ts events)) tfs u t
      (attachViolations (assembledGraph context ts events)
        (validator (assembledGraph context ts events)))
      0 (mapEvents ts context events).2).2 := hrec
  obtain ⟨item, _, hev, _, hverdict⟩ :=
    genAssessments_evidence (validator (assembledGraph context ts events)) tfs u t
      (mapEvents ts context events).2 _ _ rec hrec'
  rw [hverdict, hev]
  cases hviol : inViolationSet (validator (assembledGraph context ts events)) item.node with
  | true =>
    have hmem := (inViolationSet_iff _ _).mp hviol
    simp [hmem]
  | false =>
    have hmem : item.node ∉ (validator (assembledGraph context ts events)).map VResult.focus :=
      fun hm => by
        rw [(inViolationSet_iff _ _).mpr hm] at hviol
        cases hviol
    simp [hmem]

/-- A valid file_access event with an explicit id and no system field. -/
def exNoSystemEvent : Event :=
  [("type", JVal.jstr "file_access"),
   ("id", JVal.jstr "fa-1"),
   ("file", JVal.jobj [("name", JVal.jstr "hr.txt")]),
   ("user", JVal.jobj [("name", JVal.jstr "alice")])]

/-- Witness for C1: a one-event scan whose evidence the validator flags. -/
theorem c1_witness :
    (AssessRec.mk (Term.bnode 0) (pact "evidence/fa-1") (pact "Control_AC3") "FAIL" "scan-1")
        ∈ (run_assessment [exNoSystemEvent] []
            (fun _ => [⟨pact "evidence/fa-1", "root-owned file"⟩]) none none "scan-1" 0).2.2 ∧
    ((AssessRec.mk (Term.bnode 0) (pact "evidence/fa-1") (pact "Control_AC3") "FAIL" "scan-1").verdict
        = "FAIL" ↔
      (AssessRec.mk (Term.bnode 0) (pact "evidence/fa-1") (pact "Control_AC3") "FAIL" "scan-1").evidence
        ∈ ((fun (_ : Graph) => [(⟨pact "evidence/fa-1", "root-owned file"⟩ : VResult)])
            (assembledGraph [] none [exNoSystemEvent])).map VResult.focus) :=
  ⟨by decide,
   (c1_verdict_iff [exNoSystemEvent] [] (fun _ => [⟨pact "evidence/fa-1", "root-owned file"⟩])
      none none "scan-1" 0
      (AssessRec.mk (Term.bnode 0) (pact "evidence/fa-1") (pact "Control_AC3") "FAIL" "scan-1")
      (by decide)).1⟩

/-! ### C5: the target_systems filter -/

theorem list_isEmpty_false_of_ne_nil {α : Type} {l : List α} (h : l ≠ []) :
    l.isEmpty = false := by
  cases l with
  | nil => exact absurd rfl h
  | cons a t => rfl

/-- C5 counterexample: with target_systems = ["HR"], an event with no
explicit system field resolves to the per-type default GenericFileServer —
which is not in the filter — and yet it DOES produce an Assessment record,
refuting the claim that events whose resolved system is outside the filter
produce none. -/
theorem c5_counterexample :
    ((run_assessment [exNoSystemEvent] [] (fun _ => []) (some ["HR"]) none
        "scan-1" 0).2.2).map (fun r => r.evidence) = [evidenceUriOf exNoSystemEvent] ∧
    resolvedSystemName (getStr? exNoSystemEvent "system")
        (getStrD exNoSystemEvent "type" "unknown") = "GenericFileServer" ∧
    ¬ ("GenericFileServer" ∈ ["HR"]) := by
  refine ⟨?_, by decide, by decide⟩
  decide

/-- C5 (amended): a non-empty target_systems filter drops exactly the events
whose EXPLICIT truthy system field lies outside the filter — such events
contribute no triples, no tracker entry and hence no Assessment; an event
with no (or an empty) explicit system field is never filtered, whatever its
per-type default system resolves to; and every Assessment of a scan stems
from a tracker item of that scan. -/
theorem c5_system_filter (ts : List String) (hts : ts ≠ []) :
    (∀ (e : Event) (s : String) (g : Graph) (rest : List Event),
      truthyStr (getStr? e "system") = some s → s ∉ ts →
        mapEvents (some ts) g (e :: rest) = mapEvents (some ts) g rest) ∧
    (∀ e : Event, truthyStr (getStr? e "system") = none → keepEvent (some ts) e = true) ∧
    (∀ (events : List Event) (context : Graph) (validator : Validator)
        (tfs : Option (List String)) (u : String) (t : Nat),
      ∀ rec ∈ (run_assessment events context validator (some ts) tfs u t).2.2,
        ∃ item ∈ (mapEvents (some ts) context events).2, rec.evidence = item.node) := by
  refine ⟨?_, ?_, ?_⟩
  · intro e s g rest hsys hnot
    have hkeep : keepEvent (some ts) e = false := by
      simp [keepEvent, list_isEmpty_false_of_ne_nil hts, hsys, hnot]
    simp [mapEvents, hkeep]
  · intro e hsys
    simp [keepEvent, hsys]
  · intro events context validator tfs u t rec hrec
    have hrec' : rec ∈ (genAssessments
        (validator (assembledGraph context (some ts) events)) tfs u t
        (attachViolations (assembledGraph context (some ts) events)
          (validator (assembledGraph context (some ts) events)))
        0 (mapEvents (some ts) context events).2).2 := hrec
    obtain ⟨item, hitem, hev, _, _⟩ :=
      genAssessments_evidence (validator (assembledGraph context (some ts) events)) tfs u t
        (mapEvents (some ts) context events).2 _ _ rec hrec'
    exact ⟨item, hitem, hev⟩

/-- A file_access event carrying an explicit out-of-filter system. -/
def exPayrollEvent : Event :=
  [("type", JVal.jstr "file_access"),
   ("id", JVal.jstr "pay-1"),
   ("system", JVal.jstr "PaymentGateway"),
   ("file", JVal.jobj [("name", JVal.jstr "pay.txt")]),
   ("user", JVal.jobj [("name", JVal.jstr "bob")])]

/-- Witness for C5 (amended): dropping a concrete PaymentGateway event under
the filter ["HR"]. -/
theorem c5_witness :
    ["HR"] ≠ ([] : List String) ∧
    truthyStr (getStr? exPayrollEvent "system") = some "PaymentGateway" ∧
    "PaymentGateway" ∉ ["HR"] ∧
    mapEvents (some ["HR"]) [] [exPayrollEvent] = mapEvents (some ["HR"]) [] [] :=
  ⟨by decide, by decide, by decide,
   (c5_system_filter ["HR"] (by decide)).1 exPayrollEvent "PaymentGateway" [] []
     (by decide) (by decide)⟩

/-! ### C7: the target_frameworks filter -/

/-- With a truthy framework filter, the emitted assessments are exactly the
targeted tracker items, in order, each validating its resolved control. -/
theorem genAssessments_map_eq (results : List VResult) (tfs : List String) (u : String)
    (t : Nat) (htfs : tfs ≠ []) :
    ∀ (tracker : List TrackerItem) (g : Graph) (ctr : Nat),
      ((genAssessments results (some tfs) u t g ctr tracker).2).map
          (fun r => (r.evidence, r.control))
        = (tracker.filter fun item =>
            isTargeted (localName (resolve_control_uri item.typ)) tfs).map
            (fun item => (item.node, resolve_control_uri item.typ)) := by
  intro tracker
  induction tracker with
  | nil =>
    intro g ctr
    simp [genAssessments]
  | cons item rest ih =>
    intro g ctr
    cases hT : isTargeted (localName (resolve_control_uri item.typ)) tfs with
    | true =>
      simp [genAssessments, list_isEmpty_false_of_ne_nil htfs, hT, List.filter_cons, ih]
    | false =>
      simp [genAssessments, list_isEmpty_false_of_ne_nil htfs, hT, List.filter_cons, ih]

theorem mem_mapEvents_of_mem {g : Graph} {t : Triple} (ts : Option (List String))
    (es : List Event) (h : t ∈ g) : t ∈ (mapEvents ts g es).1 := by
  induction es generalizing g with
  | nil => exact h
  | cons e rest ih =>
    simp only [mapEvents]
    split
    · exact ih (mem_map_event_of_mem e h)
    · exact ih h

/-- Every tracked event's eventId triple is present in the mapped graph. -/
theorem mapEvents_tracker_evidence (ts : Option (List String)) :
    ∀ (es : List Event) (g : Graph), ∀ item ∈ (mapEvents ts g es).2,
      (item.node, pact "eventId", Term.lit item.id) ∈ (mapEvents ts g es).1 := by
  intro es
  induction es with
  | nil =>
    intro g item h
    cases h
  | cons e rest ih =>
    intro g item h
    by_cases hk : keepEvent ts e
    · simp only [mapEvents, if_pos hk] at h ⊢
      rcases List.mem_cons.mp h with rfl | htail
      · exact mem_mapEvents_of_mem ts rest (base_mem_map_event g e
          (List.mem_cons_of_mem _ (List.mem_cons_self _ _)))
      · exact ih _ item htail
    · simp only [mapEvents, if_neg hk] at h ⊢
      exact ih _ item h

theorem mem_attachViolations_of_mem {g : Graph} {t : Triple} (rs : List VResult) (h : t ∈ g) :
    t ∈ attachViolations g rs := by
  induction rs generalizing g with
  | nil => exact h
  | cons r rest ih => exact ih (mem_gInsert_of_mem _ h)

theorem mem_genAssessments_of_mem (results : List VResult) (tfs : Option (List String))
    (u : String) (t : Nat) :
    ∀ (tracker : List TrackerItem) (g : Graph) (ctr : Nat) {tr : Triple}, tr ∈ g →
      tr ∈ (genAssessments results tfs u t g ctr tracker).1 := by
  intro tracker
  induction tracker with
  | nil =>
    intro g ctr tr h
    exact h
  | cons item rest ih =>
    intro g ctr tr h
    simp only [genAssessments]
    split
    · exact ih _ _ h
    · exact ih _ _ (mem_insertAll_of_mem _ h)

/-- C7: with a non-empty target_frameworks filter, an Assessment is emitted
exactly for those tracked events whose resolved control is targeted under
the normalized bidirectional substring match (in tracker order, validating
that control), while the Evidence triples of every tracked event — targeted
or not — are still present in the scan graph. -/
theorem c7_framework_targeting (events : List Event) (context : Graph) (validator : Validator)
    (ts : Option (List String)) (tfs : List String) (u : String) (t : Nat) (htfs : tfs ≠ []) :
    (((run_assessment events context validator ts (some tfs) u t).2.2).map
        (fun r => (r.evidence, r.control))
      = ((mapEvents ts context events).2.filter fun item =>
          isTargeted (localName (resolve_control_uri item.typ)) tfs).map
          (fun item => (item.node, resolve_control_uri item.typ))) ∧
    ∀ item ∈ (mapEvents ts context events).2,
      (item.node, pact "eventId", Term.lit item.id)
        ∈ (run_assessment events context validator ts (some tfs) u t).2.1 := by
  constructor
  · exact genAssessments_map_eq (validator (assembledGraph context ts events)) tfs u t htfs
      (mapEvents ts context events).2 _ _
  · intro item hitem
    have h1 := mapEvents_tracker_evidence ts events context item hitem
    exact mem_genAssessments_of_mem _ _ _ _ _ _ _
      (mem_attachViolations_of_mem _ (by exact h1))

/-- Witness for C7: a file_access and an api_call event under the framework
filter AC-3, which targets only Control_AC3. -/
theorem c7_witness :
    (["AC-3"] ≠ ([] : List String)) ∧
    isTargeted (localName (resolve_control_uri "file_access")) ["AC-3"] = true ∧
    isTargeted (localName (resolve_control_uri "api_call")) ["AC-3"] = false ∧
    (((run_assessment [exNoSystemEvent, exUnknownActorEvent] [] (fun _ => []) none
          (some ["AC-3"]) "scan-1" 0).2.2).map (fun r => (r.evidence, r.control))
      = ((mapEvents none [] [exNoSystemEvent, exUnknownActorEvent]).2.filter fun item =>
          isTargeted (localName (resolve_control_uri item.typ)) ["AC-3"]).map
          (fun item => (item.node, resolve_control_uri item.typ))) :=
  ⟨by decide, by decide, by decide,
   (c7_framework_targeting [exNoSystemEvent, exUnknownActorEvent] [] (fun _ => []) none
     ["AC-3"] "scan-1" 0 (by decide)).1⟩

/-! ### C6: drift detection -/

theorem mem_graphSubjsWith {ds : List Quad} {g s p o : Term}
    (h : (⟨g, s, p, o⟩ : Quad) ∈ ds) : (g, s) ∈ graphSubjsWith ds p o :=
  List.mem_filterMap.mpr ⟨⟨g, s, p, o⟩, h, by simp⟩

theorem mem_objsOf {ds : List Quad} {g s p o : Term}
    (h : (⟨g, s, p, o⟩ : Quad) ∈ ds) : o ∈ objsOf ds g s p :=
  List.mem_filterMap.mpr ⟨⟨g, s, p, o⟩, h, by simp⟩

theorem mem_subjsOf {ds : List Quad} {g s p o : Term}
    (h : (⟨g, s, p, o⟩ : Quad) ∈ ds) : s ∈ subjsOf ds g p o :=
  List.mem_filterMap.mpr ⟨⟨g, s, p, o⟩, h, by simp⟩

theorem optObjs_exists (ds : List Quad) (g s p : Term) : ∃ x, x ∈ optObjs ds g s p := by
  unfold optObjs
  cases h : objsOf ds g s p with
  | nil => exact ⟨none, by simp⟩
  | cons a l => exact ⟨some a, by simp⟩

theorem drift_sound (ds : List Quad) :
    ∀ row ∈ get_drift ds, timeGT row.time2 row.time1 = true := by
  intro row h
  unfold get_drift at h
  rw [(List.perm_insertionSort driftLE _).mem_iff] at h
  exact (List.mem_filter.mp h).2

theorem drift_sorted (ds : List Quad) : List.Sorted driftLE (get_drift ds) :=
  List.sorted_insertionSort driftLE _

/-- C6: whenever two different scans hold a PASS assessment at t1 and a FAIL
assessment at t2 > t1 for the same asset identifier and the same control
(with the attributes the query joins on), get_drift reports that (t1, t2)
pair with its asset, system, control and link; no reported pair ever has
FAIL timestamp at or before the PASS timestamp; and the result list is
ordered by FAIL timestamp descending. -/
theorem c6_drift_detection (ds : List Quad) (g1 g2 a1 a2 c ev1 ev2 sys : Term)
    (ident link sysName cName : Term) (t1 t2 : Nat)
    (hfail : (⟨g2, a2, pact "hasVerdict", Term.lit "FAIL"⟩ : Quad) ∈ ds)
    (hvc2 : (⟨g2, a2, pact "validatesControl", c⟩ : Quad) ∈ ds)
    (hee2 : (⟨g2, a2, pact "evaluatedEvidence", ev2⟩ : Quad) ∈ ds)
    (hga2 : (⟨g2, a2, pact "generatedAt", Term.timeLit t2⟩ : Quad) ∈ ds)
    (hfn2 : (⟨g2, ev2, ucoObs "fileName", ident⟩ : Quad) ∈ ds)
    (hsu2 : (⟨g2, ev2, pact "evidenceSourceUrl", link⟩ : Quad) ∈ ds)
    (hhc2 : (⟨g2, sys, pact "hasComponent", ev2⟩ : Quad) ∈ ds)
    (hsl2 : (⟨g2, sys, rdfsLabel, sysName⟩ : Quad) ∈ ds)
    (hcl2 : (⟨g2, c, rdfsLabel, cName⟩ : Quad) ∈ ds)
    (hpass : (⟨g1, a1, pact "hasVerdict", Term.lit "PASS"⟩ : Quad) ∈ ds)
    (hvc1 : (⟨g1, a1, pact "validatesControl", c⟩ : Quad) ∈ ds)
    (hee1 : (⟨g1, a1, pact "evaluatedEvidence", ev1⟩ : Quad) ∈ ds)
    (hga1 : (⟨g1, a1, pact "generatedAt", Term.timeLit t1⟩ : Quad) ∈ ds)
    (hfn1 : (⟨g1, ev1, ucoObs "fileName", ident⟩ : Quad) ∈ ds)
    (_hdiff : g1 ≠ g2) (ht : t1 < t2) :
    (∃ row ∈ get_drift ds,
      row.systemName = sysName ∧ row.controlName = cName ∧ row.identifier = ident ∧
      row.time1 = Term.timeLit t1 ∧ row.time2 = Term.timeLit t2 ∧ row.deepLink = link) ∧
    (∀ ds' : List Quad, ∀ row ∈ get_drift ds', timeGT row.time2 row.time1 = true) ∧
    (∀ ds' : List Quad, List.Sorted driftLE (get_drift ds')) := by
  refine ⟨?_, drift_sound, drift_sorted⟩
  obtain ⟨aN, haN⟩ := optObjs_exists ds g2 ev2 (pact "actorName")
  obtain ⟨oN, hoN⟩ := optObjs_exists ds g2 ev2 (ucoObs "owner")
  obtain ⟨cB, hcB⟩ := optObjs_exists ds g2 ev2 (pact "changedBy")
  obtain ⟨eT, heT⟩ := optObjs_exists ds g2 ev2 (pact "eventType")
  obtain ⟨fP, hfP⟩ := optObjs_exists ds g2 ev2 (ucoObs "filePath")
  obtain ⟨vM, hvM⟩ := optObjs_exists ds g2 ev2 (pact "violationMessage")
  refine ⟨⟨sysName, cName, ident, Term.timeLit t1, Term.timeLit t2, link,
      aN, oN, cB, eT, fP, vM⟩, ?_, rfl, rfl, rfl, rfl, rfl, rfl⟩
  unfold get_drift
  rw [(List.perm_insertionSort driftLE _).mem_iff, List.mem_filter]
  refine ⟨?_, by simp [timeGT, ht]⟩
  unfold driftCandidates
  refine List.mem_flatMap.mpr ⟨(g2, a2), mem_graphSubjsWith hfail, ?_⟩
  refine List.mem_flatMap.mpr ⟨c, mem_objsOf hvc2, ?_⟩
  refine List.mem_flatMap.mpr ⟨ev2, mem_objsOf hee2, ?_⟩
  refine List.mem_flatMap.mpr ⟨Term.timeLit t2, mem_objsOf hga2, ?_⟩
  refine List.mem_flatMap.mpr ⟨ident, mem_objsOf hfn2, ?_⟩
  refine List.mem_flatMap.mpr ⟨link, mem_objsOf hsu2, ?_⟩
  refine List.mem_flatMap.mpr ⟨sys, mem_subjsOf hhc2, ?_⟩
  refine List.mem_flatMap.mpr ⟨sysName, mem_objsOf hsl2, ?_⟩
  refine List.mem_flatMap.mpr ⟨cName, mem_objsOf hcl2, ?_⟩
  refine List.mem_flatMap.mpr ⟨aN, haN, ?_⟩
  refine List.mem_flatMap.mpr ⟨oN, hoN, ?_⟩
  refine List.mem_flatMap.mpr ⟨cB, hcB, ?_⟩
  refine List.mem_flatMap.mpr ⟨eT, heT, ?_⟩
  refine List.mem_flatMap.mpr ⟨fP, hfP, ?_⟩
  refine List.mem_flatMap.mpr ⟨vM, hvM, ?_⟩
  refine List.mem_flatMap.mpr ⟨(g1, a1), mem_graphSubjsWith hpass, ?_⟩
  refine List.mem_flatMap.mpr ⟨ev1, mem_objsOf hee1, ?_⟩
  refine List.mem_flatMap.mpr ⟨Term.timeLit t1, mem_objsOf hga1, ?_⟩
  rw [if_pos ⟨hvc1, hfn1⟩]
  exact List.mem_singleton.mpr rfl

/-- A two-scan dataset with a PASS at time 100 and a FAIL at time 200 for
the same asset and control. -/
def exDriftDs : List Quad :=
  [⟨Term.uri NS.plain "g2", Term.bnode 2, pact "hasVerdict", Term.lit "FAIL"⟩,
   ⟨Term.uri NS.plain "g2", Term.bnode 2, pact "validatesControl", pact "Control_AC3"⟩,
   ⟨Term.uri NS.plain "g2", Term.bnode 2, pact "evaluatedEvidence", pact "evidence/hr-2"⟩,
   ⟨Term.uri NS.plain "g2", Term.bnode 2, pact "generatedAt", Term.timeLit 200⟩,
   ⟨Term.uri NS.plain "g2", pact "evidence/hr-2", ucoObs "fileName", Term.lit "hr.txt"⟩,
   ⟨Term.uri NS.plain "g2", pact "evidence/hr-2", pact "evidenceSourceUrl", Term.lit "https://splunk/hr2"⟩,
   ⟨Term.uri NS.plain "g2", pact "HRPortal", pact "hasComponent", pact "evidence/hr-2"⟩,
   ⟨Term.uri NS.plain "g2", pact "HRPortal", rdfsLabel, Term.lit "HRPortal"⟩,
   ⟨Term.uri NS.plain "g2", pact "Control_AC3", rdfsLabel, Term.lit "Access Enforcement"⟩,
   ⟨Term.uri NS.plain "g1", Term.bnode 1, pact "hasVerdict", Term.lit "PASS"⟩,
   ⟨Term.uri NS.plain "g1", Term.bnode 1, pact "validatesControl", pact "Control_AC3"⟩,
   ⟨Term.uri NS.plain "g1", Term.bnode 1, pact "evaluatedEvidence", pact "evidence/hr-1"⟩,
   ⟨Term.uri NS.plain "g1", Term.bnode 1, pact "generatedAt", Term.timeLit 100⟩,
   ⟨Term.uri NS.plain "g1", pact "evidence/hr-1", ucoObs "fileName", Term.lit "hr.txt"⟩]

/-- Witness for C6 on the two-scan dataset. -/
theorem c6_witness :
    ∃ row ∈ get_drift exDriftDs,
      row.systemName = Term.lit "HRPortal" ∧
      row.controlName = Term.lit "Access Enforcement" ∧
      row.identifier = Term.lit "hr.txt" ∧
      row.time1 = Term.timeLit 100 ∧ row.time2 = Term.timeLit 200 ∧
      row.deepLink = Term.lit "https://splunk/hr2" :=
  (c6_drift_detection exDriftDs
    (Term.uri NS.plain "g1") (Term.uri NS.plain "g2") (Term.bnode 1) (Term.bnode 2)
    (pact "Control_AC3") (pact "evidence/hr-1") (pact "evidence/hr-2") (pact "HRPortal")
    (Term.lit "hr.txt") (Term.lit "https://splunk/hr2") (Term.lit "HRPortal")
    (Term.lit "Access Enforcement") 100 200
    (by decide) (by decide) (by decide) (by decide) (by decide) (by decide) (by decide)
    (by decide) (by decide) (by decide) (by decide) (by decide) (by decide) (by decide)
    (by decide) (by decide)).1

end PactSpec
